import Mathlib

/-!
A shallow embedding of sciunit/capabilities.py: the Capability class with its
classmethods source_check and check, the unimplemented helper, and the two
example capability declarations ProducesNumber and Runnable.

Python classes are embedded as records carrying the data the code inspects:
the class name, the function-valued entries of vars(cls) together with the
source lines inspect.getsourcelines would return for each (none models the
OSError path where the source cannot be retrieved), and the names of all
classes in the class MRO (for issubclass tests against Capability and Model).
A model object carries the MRO of its class, the value of its
extra_capability_checks attribute (none models the attribute being None),
and the zero-argument boolean methods reachable by getattr (name to result).
Raising is modelled with Except; the warnings.warn channel is modelled as an
explicit list of emitted warnings in the return value.
-/

set_option maxRecDepth 8192

deriving instance DecidableEq for Except

namespace Sciunit

/-- The source lines of one Python method, as inspect.getsourcelines returns
them (each line keeps its trailing newline). -/
abbrev Src := List String

/-- A Python class as the checker sees it: its name, the function-valued
entries of vars(cls) in definition order, each with its retrievable source
(none models inspect raising OSError for that method), and the names of every
class in its MRO, itself included (for issubclass tests). -/
structure PyClass where
  name : String
  methods : List (String × Option Src)
  ancestors : List String
deriving DecidableEq

/-- A model object: the MRO of its class (most specific first), the value of
its extra_capability_checks attribute (none models the attribute being None,
some an association from capability class to method name), and the
zero-argument boolean verification methods getattr can find on it. -/
structure PyObj where
  mro : List PyClass
  extraCapabilityChecks : Option (List (PyClass × String))
  extraMethods : List (String × Bool)
deriving DecidableEq

/-- The three distinct messages the module passes to warnings.warn. -/
inductive Warning where
  | sourceCaveat
  | structuralMismatch
  | behavioralMismatch
deriving DecidableEq

/-- The exceptions the embedded code can raise. -/
inductive PyError where
  | attributeError
  | capabilityNotImplemented (model : Option PyObj) (capability : Option PyClass)
      (message : String)
deriving DecidableEq

/-- isinstance(model, cls): cls occurs in the MRO of the class of model. -/
def isinstance (model : PyObj) (cls : PyClass) : Bool :=
  model.mro.contains cls

/-- default_cap_methods = ["unimplemented", "__str__"] -/
def default_cap_methods : List String := ["unimplemented", "__str__"]

/-- str.strip() on the characters of a line: drop leading and trailing
whitespace (the whitespace that occurs in source lines: space, tab, newline,
carriage return). -/
def pyStrip (cs : List Char) : List Char :=
  ((cs.dropWhile Char.isWhitespace).reverse.dropWhile Char.isWhitespace).reverse

/-- One iteration of the stub scan: line = line.strip(); the Python code
compares line[:35], line[:13] and line[:25] against three literals whose
lengths are exactly 35, 13 and 25, i.e. a prefix test on the stripped
line. -/
def isStubLine (line : String) : Bool :=
  let l := pyStrip line.data
  "raise CapabilityNotImplementedError".data.isPrefixOf l ||
  "unimplemented".data.isPrefixOf l ||
  "raise NotImplementedError".data.isPrefixOf l

/-- The required methods of a capability: the function-valued entries of
vars(cls) whose key is not in default_cap_methods, each kept with the source
getattr(cls, method) leads to (for a vars entry, getattr returns that very
function). -/
def requiredPairs (cls : PyClass) : List (String × Option Src) :=
  cls.methods.filter (fun p => !(default_cap_methods.contains p.1))

/-- inspect.getsource(getattr(model, method)): getattr on an instance
resolves through the class MRO, first class whose dict has the name wins.
The outer none models getattr raising AttributeError (no class defines the
method); the inner none models inspect raising OSError on the resolved
function. -/
def resolveSrc (model : PyObj) (m : String) : Option (Option Src) :=
  (model.mro.find? (fun c => (c.methods.lookup m).isSome)).map
    (fun c => (c.methods.lookup m).join)

/-- The for-loop of Capability.source_check over the required methods.
source_capable starts True; a stub whose model source equals the capability
source sets it False and breaks at once, so whenever the OSError handler
runs the partial verdict still held in source_capable is True: the handler
warns and breaks, returning that partial verdict. -/
def sourceCheckLoop (model : PyObj) :
    List (String × Option Src) → Except PyError (Bool × List Warning)
  | [] => .ok (true, [])
  | (m, capSrc) :: rest =>
    match capSrc with
    | none => .ok (true, [Warning.sourceCaveat])
    | some capLines =>
      if capLines.any isStubLine then
        match resolveSrc model m with
        | none => .error PyError.attributeError
        | some none => .ok (true, [Warning.sourceCaveat])
        | some (some modelLines) =>
          if capLines = modelLines then .ok (false, [])
          else sourceCheckLoop model rest
      else sourceCheckLoop model rest

/-- Capability.source_check(cls, model). -/
def source_check (cls : PyClass) (model : PyObj) :
    Except PyError (Bool × List Warning) :=
  sourceCheckLoop model (requiredPairs cls)

/-- f_name = model.extra_capability_checks.get(cls, None) if
model.extra_capability_checks is not None else False. Both None and False
are falsy, so both collapse to none here. -/
def extraEntry (model : PyObj) (cls : PyClass) : Option String :=
  match model.extraCapabilityChecks with
  | some checks => checks.lookup cls
  | none => none

/-- The first block of Capability.check: source_capable starts as None and
is set to the source_check verdict only when class_capable holds; the caveat
warnings source_check emits pass through. -/
def sourceStep (cls : PyClass) (model : PyObj) :
    Except PyError (Option Bool × List Warning) :=
  if isinstance model cls then
    match source_check cls model with
    | .ok (b, w) => .ok (some b, w)
    | .error e => .error e
  else .ok (none, [])

/-- The instance-check block of Capability.check: when f_name is truthy (a
non-empty registered name) the named zero-argument method is fetched with
getattr (AttributeError when absent) and invoked; otherwise
instance_capable is the negation of require_extra. -/
def instanceStep (cls : PyClass) (model : PyObj) (require_extra : Bool) :
    Except PyError Bool :=
  match extraEntry model cls with
  | some n =>
    if n = "" then .ok (if require_extra then false else true)
    else
      match model.extraMethods.lookup n with
      | some b => .ok b
      | none => .error PyError.attributeError
  | none => .ok (if require_extra then false else true)

/-- Capability.check(cls, model, require_extra). The final Python expression
class_capable and instance_capable and source_capable short-circuits, so when
class_capable is False the still-None source_capable is never consulted; when
all guards pass the returned value is the boolean source_capable. -/
def check (cls : PyClass) (model : PyObj) (require_extra : Bool) :
    Except PyError (Bool × List Warning) :=
  let class_capable := isinstance model cls
  match sourceStep cls model with
  | .error e => .error e
  | .ok (source_capable, sourceWarnings) =>
    match instanceStep cls model require_extra with
    | .error e => .error e
    | .ok instance_capable =>
      let tailWarnings :=
        if !class_capable then [Warning.structuralMismatch]
        else if source_capable = some false then [Warning.behavioralMismatch]
        else []
      .ok (class_capable && instance_capable && source_capable.getD false,
           sourceWarnings ++ tailWarnings)

/-- The boolean verdict of check, with warnings stripped. -/
def checkVerdict (cls : PyClass) (model : PyObj) (require_extra : Bool) :
    Except PyError Bool :=
  (check cls model require_extra).map Prod.fst

/-- Whether an Except value is a normal return rather than a raise. -/
def isOkResult (r : Except PyError (Bool × List Warning)) : Bool :=
  match r with
  | .ok _ => true
  | .error _ => false

/-- Capability.unimplemented(self, message): filter the MRO of the class of
self down to the classes that are Capability subclasses but not Model
subclasses, take the first as the responsible capability (None when empty),
attach self when it is a Model instance, and raise
CapabilityNotImplementedError with those and the message. -/
def unimplemented (self : PyObj) (message : String) : PyError :=
  let capabilities := self.mro.filter
    (fun c => c.ancestors.contains "Capability" && !(c.ancestors.contains "Model"))
  let model : Option PyObj :=
    if self.mro.any (fun c => c.name = "Model") then some self else none
  let capability : Option PyClass := capabilities.head?
  PyError.capabilityNotImplemented model capability message

/-- The Model interface the surrounding framework guarantees: every method
name registered in extra_capability_checks is the name of a zero-argument
verification method present on the instance. -/
def validExtras (model : PyObj) : Bool :=
  match model.extraCapabilityChecks with
  | some checks => checks.all (fun p => (model.extraMethods.lookup p.2).isSome)
  | none => true

/-- The boolean verdict of source_check, defaulting to false on a raise. -/
def sourceVerdict (cls : PyClass) (model : PyObj) : Bool :=
  match source_check cls model with
  | .ok p => p.1
  | .error _ => false

/-- Whether a required-method entry is classified as a stub by the scan. -/
def stubPair (p : String × Option Src) : Bool :=
  (p.2.getD []).any isStubLine

/-! ### The concrete classes of the module

The hierarchy around the capabilities: object, SciUnit (the base the module
imports), Capability, and the external Model. The function-valued vars
entries of Capability itself are exactly unimplemented and __str__, both
listed in default_cap_methods and filtered out before any source retrieval,
so they are omitted from its methods list (requiredPairs is [] either way
and no claim resolves them through an MRO). -/

def objectC : PyClass := ⟨"object", [], ["object"]⟩

def sciUnitC : PyClass := ⟨"SciUnit", [], ["SciUnit", "object"]⟩

def capabilityC : PyClass := ⟨"Capability", [], ["Capability", "SciUnit", "object"]⟩

def modelC : PyClass := ⟨"Model", [], ["Model", "SciUnit", "object"]⟩

/-- inspect.getsourcelines(ProducesNumber.produce_number)[0]. -/
def produceNumberSrc : Src :=
  [ "    def produce_number(self) -> None:\n"
  , "        \"\"\"Produce a number.\"\"\"\n"
  , "        self.unimplemented()\n" ]

/-- class ProducesNumber(Capability), declaring produce_number. -/
def producesNumberC : PyClass :=
  ⟨"ProducesNumber", [("produce_number", some produceNumberSrc)],
   ["ProducesNumber", "Capability", "SciUnit", "object"]⟩

/-- inspect.getsourcelines(Runnable.run)[0]. -/
def runSrc : Src :=
  [ "    def run(self, **run_params) -> None:\n"
  , "        \"\"\"Run, i.e. simulate the model.\"\"\"\n"
  , "        self.unimplemented()\n" ]

/-- inspect.getsourcelines(Runnable.set_run_params)[0]. -/
def setRunParamsSrc : Src :=
  [ "    def set_run_params(self, **run_params) -> None:\n"
  , "        \"\"\"Set parameters for the next run.\n"
  , "\n"
  , "        Note these are parameters of the simulation itself, not the model.\n"
  , "        \"\"\"\n"
  , "        self.unimplemented()\n" ]

/-- inspect.getsourcelines(Runnable.set_default_run_params)[0]. -/
def setDefaultRunParamsSrc : Src :=
  [ "    def set_default_run_params(self, **default_run_params) -> None:\n"
  , "        \"\"\"Set default parameters for all runs.\n"
  , "\n"
  , "        Note these are parameters of the simulation itself, not the model.\n"
  , "        \"\"\"\n"
  , "        self.unimplemented()\n" ]

/-- class Runnable(Capability), declaring run, set_run_params and
set_default_run_params. -/
def runnableC : PyClass :=
  ⟨"Runnable",
   [("run", some runSrc),
    ("set_run_params", some setRunParamsSrc),
    ("set_default_run_params", some setDefaultRunParamsSrc)],
   ["Runnable", "Capability", "SciUnit", "object"]⟩

/-- class BrokenModel(Model, ProducesNumber) with an empty class body: it
subclasses ProducesNumber but never overrides produce_number. -/
def brokenModelC : PyClass :=
  ⟨"BrokenModel", [],
   ["BrokenModel", "Model", "ProducesNumber", "Capability", "SciUnit", "object"]⟩

/-- A BrokenModel instance; its extra_capability_checks attribute is None. -/
def brokenModel : PyObj :=
  ⟨[brokenModelC, modelC, producesNumberC, capabilityC, sciUnitC, objectC],
   none, []⟩

/-! ### Fixture classes used as concrete inputs for witnesses and
counterexamples: a user-written capability whose stub body the scan does
recognize, models inheriting it unchanged, and a capability with a method
whose source inspect cannot retrieve. -/

/-- A stub body written in the form the scan recognizes: a stripped line
beginning with the literal raise NotImplementedError. -/
def getKeySrc : Src :=
  [ "    def get_key(self):\n"
  , "        raise NotImplementedError\n" ]

/-- A capability declaring get_key with a recognized stub body. -/
def hasKeyC : PyClass :=
  ⟨"HasKey", [("get_key", some getKeySrc)],
   ["HasKey", "Capability", "SciUnit", "object"]⟩

/-- class LazyModel(Model, HasKey) with an empty body: it inherits the
get_key stub unchanged. -/
def lazyModelC : PyClass :=
  ⟨"LazyModel", [],
   ["LazyModel", "Model", "HasKey", "Capability", "SciUnit", "object"]⟩

/-- A LazyModel instance. -/
def lazyModel : PyObj :=
  ⟨[lazyModelC, modelC, hasKeyC, capabilityC, sciUnitC, objectC], none, []⟩

/-- A capability declaring first helper_method, whose source inspect cannot
retrieve, and then get_key with a recognized stub body. -/
def badCapC : PyClass :=
  ⟨"BadCap", [("helper_method", none), ("get_key", some getKeySrc)],
   ["BadCap", "Capability", "SciUnit", "object"]⟩

/-- class BadModel(Model, BadCap) with an empty body. -/
def badModelC : PyClass :=
  ⟨"BadModel", [],
   ["BadModel", "Model", "BadCap", "Capability", "SciUnit", "object"]⟩

/-- A BadModel instance: it inherits the get_key stub of BadCap unchanged. -/
def badModel : PyObj :=
  ⟨[badModelC, modelC, badCapC, capabilityC, sciUnitC, objectC], none, []⟩

/-- class ExtraModel(Model, ProducesNumber) registering the extra check
check_pn for ProducesNumber; check_pn() returns True on this instance. -/
def extraModelC : PyClass :=
  ⟨"ExtraModel", [],
   ["ExtraModel", "Model", "ProducesNumber", "Capability", "SciUnit", "object"]⟩

/-- An ExtraModel instance. -/
def extraModel : PyObj :=
  ⟨[extraModelC, modelC, producesNumberC, capabilityC, sciUnitC, objectC],
   some [(producesNumberC, "check_pn")], [("check_pn", true)]⟩

/-! ### Helper lemmas -/

theorem isinstance_mem {model : PyObj} {cls : PyClass}
    (h : isinstance model cls = true) : cls ∈ model.mro := by
  simpa [isinstance, List.contains] using h

theorem lookup_isSome_of_mem {l : List (String × Option Src)}
    {p : String × Option Src} (hp : p ∈ l) : (l.lookup p.1).isSome := by
  rw [List.lookup_isSome_iff]
  exact ⟨p, hp, by simp⟩

/-- When the model is an instance of the capability, getattr(model, m)
succeeds for every required method m: the capability class itself sits in
the MRO and defines m. -/
theorem resolveSrc_isSome_of_isinstance {model : PyObj} {cls : PyClass}
    (h : isinstance model cls = true) {p : String × Option Src}
    (hp : p ∈ requiredPairs cls) : (resolveSrc model p.1).isSome := by
  have hmem : p ∈ cls.methods := List.mem_of_mem_filter hp
  unfold resolveSrc
  rw [Option.isSome_map']
  rw [List.find?_isSome]
  exact ⟨cls, isinstance_mem h, lookup_isSome_of_mem hmem⟩

/-- Loop equation: capability source unretrievable, warn and break with the
partial verdict. -/
theorem loop_cons_caveat (model : PyObj) (m : String)
    (rest : List (String × Option Src)) :
    sourceCheckLoop model ((m, none) :: rest) =
      .ok (true, [Warning.sourceCaveat]) := rfl

/-- Loop equation: method not classified as a stub, move on. -/
theorem loop_cons_notstub (model : PyObj) (m : String) (capLines : Src)
    (rest : List (String × Option Src)) (h : capLines.any isStubLine = false) :
    sourceCheckLoop model ((m, some capLines) :: rest) =
      sourceCheckLoop model rest := by
  simp [sourceCheckLoop, h]

/-- Loop equation: stub method, getattr on the model fails. -/
theorem loop_cons_noattr (model : PyObj) (m : String) (capLines : Src)
    (rest : List (String × Option Src)) (h : capLines.any isStubLine = true)
    (hr : resolveSrc model m = none) :
    sourceCheckLoop model ((m, some capLines) :: rest) =
      .error PyError.attributeError := by
  simp [sourceCheckLoop, h, hr]

/-- Loop equation: stub method, model source unretrievable, warn and break
with the partial verdict. -/
theorem loop_cons_oserr (model : PyObj) (m : String) (capLines : Src)
    (rest : List (String × Option Src)) (h : capLines.any isStubLine = true)
    (hr : resolveSrc model m = some none) :
    sourceCheckLoop model ((m, some capLines) :: rest) =
      .ok (true, [Warning.sourceCaveat]) := by
  simp [sourceCheckLoop, h, hr]

/-- Loop equation: stub method whose model source equals the capability
source, verdict false and break. -/
theorem loop_cons_same (model : PyObj) (m : String) (capLines : Src)
    (rest : List (String × Option Src)) (h : capLines.any isStubLine = true)
    (hr : resolveSrc model m = some (some capLines)) :
    sourceCheckLoop model ((m, some capLines) :: rest) = .ok (false, []) := by
  simp [sourceCheckLoop, h, hr]

/-- Loop equation: stub method overridden with different text, move on. -/
theorem loop_cons_diff (model : PyObj) (m : String) (capLines modelLines : Src)
    (rest : List (String × Option Src)) (h : capLines.any isStubLine = true)
    (hr : resolveSrc model m = some (some modelLines))
    (hne : capLines ≠ modelLines) :
    sourceCheckLoop model ((m, some capLines) :: rest) =
      sourceCheckLoop model rest := by
  simp [sourceCheckLoop, h, hr, hne]

/-- The source_check loop returns normally whenever every listed method
resolves on the model. -/
theorem sourceCheckLoop_ok (model : PyObj) (pairs : List (String × Option Src))
    (h : ∀ p ∈ pairs, (resolveSrc model p.1).isSome) :
    ∃ b w, sourceCheckLoop model pairs = .ok (b, w) := by
  induction pairs with
  | nil => exact ⟨true, [], rfl⟩
  | cons hd tl ih =>
    obtain ⟨m, capSrc⟩ := hd
    have hhd : (resolveSrc model m).isSome := h (m, capSrc) (by simp)
    have htl : ∀ p ∈ tl, (resolveSrc model p.1).isSome :=
      fun p hp => h p (List.mem_cons_of_mem _ hp)
    cases capSrc with
    | none => exact ⟨true, [Warning.sourceCaveat], loop_cons_caveat ..⟩
    | some capLines =>
      cases hAny : capLines.any isStubLine with
      | false =>
        obtain ⟨b, w, hw⟩ := ih htl
        exact ⟨b, w, (loop_cons_notstub model m capLines tl hAny).trans hw⟩
      | true =>
        cases hres : resolveSrc model m with
        | none => rw [hres] at hhd; simp at hhd
        | some inner =>
          cases inner with
          | none =>
            exact ⟨true, [Warning.sourceCaveat],
              loop_cons_oserr model m capLines tl hAny hres⟩
          | some modelLines =>
            by_cases heq : capLines = modelLines
            · subst heq
              exact ⟨false, [], loop_cons_same model m capLines tl hAny hres⟩
            · obtain ⟨b, w, hw⟩ := ih htl
              exact ⟨b, w,
                (loop_cons_diff model m capLines modelLines tl hAny hres heq).trans hw⟩

/-- source_check returns normally whenever the model is an instance of the
capability. -/
theorem source_check_ok_of_isinstance {cls : PyClass} {model : PyObj}
    (h : isinstance model cls = true) :
    ∃ b w, source_check cls model = .ok (b, w) :=
  sourceCheckLoop_ok model (requiredPairs cls)
    (fun _ hp => resolveSrc_isSome_of_isinstance h hp)

/-- Whenever the loop emitted the retrieval caveat, the verdict returned is
the partial one, and that partial verdict is necessarily true (a false
verdict exits the loop immediately, before any further retrieval). -/
theorem sourceCheckLoop_caveat (model : PyObj)
    (pairs : List (String × Option Src)) (b : Bool) (w : List Warning)
    (h : sourceCheckLoop model pairs = .ok (b, w))
    (hc : Warning.sourceCaveat ∈ w) :
    b = true ∧ w = [Warning.sourceCaveat] := by
  induction pairs with
  | nil =>
    have h2 : ((true, []) : Bool × List Warning) = (b, w) :=
      Except.ok.inj ((rfl : sourceCheckLoop model [] = .ok (true, [])).symm.trans h)
    obtain ⟨rfl, rfl⟩ := (Prod.mk.injEq ..).mp h2.symm
    simp at hc
  | cons hd tl ih =>
    obtain ⟨m, capSrc⟩ := hd
    cases capSrc with
    | none =>
      have h2 : ((true, [Warning.sourceCaveat]) : Bool × List Warning) = (b, w) :=
        Except.ok.inj ((loop_cons_caveat model m tl).symm.trans h)
      obtain ⟨rfl, rfl⟩ := (Prod.mk.injEq ..).mp h2.symm
      exact ⟨rfl, rfl⟩
    | some capLines =>
      cases hAny : capLines.any isStubLine with
      | false =>
        rw [loop_cons_notstub model m capLines tl hAny] at h
        exact ih h
      | true =>
        cases hres : resolveSrc model m with
        | none =>
          rw [loop_cons_noattr model m capLines tl hAny hres] at h
          cases h
        | some inner =>
          cases inner with
          | none =>
            have h2 : ((true, [Warning.sourceCaveat]) : Bool × List Warning) = (b, w) :=
              Except.ok.inj ((loop_cons_oserr model m capLines tl hAny hres).symm.trans h)
            obtain ⟨rfl, rfl⟩ := (Prod.mk.injEq ..).mp h2.symm
            exact ⟨rfl, rfl⟩
          | some modelLines =>
            by_cases heq : capLines = modelLines
            · subst heq
              have h2 : ((false, []) : Bool × List Warning) = (b, w) :=
                Except.ok.inj ((loop_cons_same model m capLines tl hAny hres).symm.trans h)
              obtain ⟨rfl, rfl⟩ := (Prod.mk.injEq ..).mp h2.symm
              simp at hc
            · rw [loop_cons_diff model m capLines modelLines tl hAny hres heq] at h
              exact ih h

/-- The loop returns the false verdict when every listed capability source
is retrievable, every stub-classified method resolves to a retrievable model
source, and at least one stub-classified method resolves to exactly the
capability source. -/
theorem sourceCheckLoop_false (model : PyObj)
    (pairs : List (String × Option Src))
    (hall : ∀ p ∈ pairs, p.2.isSome = true)
    (hres : ∀ p ∈ pairs, stubPair p = true → ((resolveSrc model p.1).join.isSome = true))
    (hwit : ∃ p ∈ pairs, stubPair p = true ∧ resolveSrc model p.1 = some p.2) :
    sourceCheckLoop model pairs = .ok (false, []) := by
  induction pairs with
  | nil => obtain ⟨p, hp, _⟩ := hwit; simp at hp
  | cons hd tl ih =>
    obtain ⟨m, capSrc⟩ := hd
    have hhd : capSrc.isSome = true := hall (m, capSrc) (by simp)
    obtain ⟨capLines, rfl⟩ := Option.isSome_iff_exists.mp hhd
    cases hAny : capLines.any isStubLine with
    | true =>
      have hstub : stubPair (m, some capLines) = true := by simpa [stubPair] using hAny
      have hj := hres (m, some capLines) (by simp) hstub
      cases hresolved : resolveSrc model m with
      | none => rw [hresolved] at hj; simp at hj
      | some inner =>
        cases inner with
        | none => rw [hresolved] at hj; simp at hj
        | some modelLines =>
          by_cases heq : capLines = modelLines
          · subst heq
            exact loop_cons_same model m capLines tl hAny hresolved
          · have hwit2 : ∃ p ∈ tl, stubPair p = true ∧ resolveSrc model p.1 = some p.2 := by
              obtain ⟨p, hp, hps, hpr⟩ := hwit
              rcases List.mem_cons.mp hp with hph | hpt
              · exfalso
                subst hph
                rw [hresolved] at hpr
                simp only [Option.some.injEq] at hpr
                exact heq (by simpa using hpr.symm)
              · exact ⟨p, hpt, hps, hpr⟩
            have htail := ih (fun p hp => hall p (List.mem_cons_of_mem _ hp))
              (fun p hp hs => hres p (List.mem_cons_of_mem _ hp) hs) hwit2
            exact (loop_cons_diff model m capLines modelLines tl hAny hresolved heq).trans htail
    | false =>
      have hwit2 : ∃ p ∈ tl, stubPair p = true ∧ resolveSrc model p.1 = some p.2 := by
        obtain ⟨p, hp, hps, hpr⟩ := hwit
        rcases List.mem_cons.mp hp with hph | hpt
        · exfalso; subst hph; simp [stubPair, hAny] at hps
        · exact ⟨p, hpt, hps, hpr⟩
      have htail := ih (fun p hp => hall p (List.mem_cons_of_mem _ hp))
        (fun p hp hs => hres p (List.mem_cons_of_mem _ hp) hs) hwit2
      exact (loop_cons_notstub model m capLines tl hAny).trans htail

/-- Under the Model interface, a registered extra-check name resolves via
getattr. -/
theorem extraLookup_isSome {model : PyObj} {cls : PyClass} {n : String}
    (hv : validExtras model = true) (he : extraEntry model cls = some n) :
    (model.extraMethods.lookup n).isSome = true := by
  unfold extraEntry at he
  cases hec : model.extraCapabilityChecks with
  | none => rw [hec] at he; cases he
  | some checks =>
    rw [hec] at he
    unfold validExtras at hv
    rw [hec] at hv
    rw [List.all_eq_true] at hv
    obtain ⟨l₁, l₂, hsplit, -⟩ := List.lookup_eq_some_iff.mp he
    have hmem : (cls, n) ∈ checks := by rw [hsplit]; simp
    simpa using hv _ hmem

/-- Under the Model interface, the instance-check block returns normally. -/
theorem instanceStep_ok {model : PyObj} (cls : PyClass) (require_extra : Bool)
    (hv : validExtras model = true) :
    ∃ b, instanceStep cls model require_extra = .ok b := by
  unfold instanceStep
  cases he : extraEntry model cls with
  | none => exact ⟨_, rfl⟩
  | some n =>
    by_cases hn : n = ""
    · exact ⟨if require_extra then false else true, by simp [hn]⟩
    · obtain ⟨b, hb⟩ := Option.isSome_iff_exists.mp (extraLookup_isSome hv he)
      exact ⟨b, by simp [hn, hb]⟩

theorem sourceStep_not_instance {cls : PyClass} {model : PyObj}
    (h : isinstance model cls = false) : sourceStep cls model = .ok (none, []) := by
  simp [sourceStep, h]

theorem sourceStep_instance {cls : PyClass} {model : PyObj} {b : Bool}
    {w : List Warning} (h : isinstance model cls = true)
    (hs : source_check cls model = .ok (b, w)) :
    sourceStep cls model = .ok (some b, w) := by
  simp [sourceStep, h, hs]

theorem instanceStep_none {cls : PyClass} {model : PyObj} {require_extra : Bool}
    (h : extraEntry model cls = none) :
    instanceStep cls model require_extra = .ok (if require_extra then false else true) := by
  simp [instanceStep, h]

theorem instanceStep_some {cls : PyClass} {model : PyObj} {require_extra : Bool}
    {n : String} {b : Bool} (h : extraEntry model cls = some n) (hn : n ≠ "")
    (hb : model.extraMethods.lookup n = some b) :
    instanceStep cls model require_extra = .ok b := by
  simp [instanceStep, h, hn, hb]

/-- check, assembled from the outcomes of its two fallible blocks. -/
theorem check_eq (cls : PyClass) (model : PyObj) (require_extra : Bool)
    (sc : Option Bool) (sw : List Warning) (ic : Bool)
    (h1 : sourceStep cls model = .ok (sc, sw))
    (h2 : instanceStep cls model require_extra = .ok ic) :
    check cls model require_extra =
      .ok (isinstance model cls && ic && sc.getD false,
        sw ++ (if !(isinstance model cls) then [Warning.structuralMismatch]
               else if sc = some false then [Warning.behavioralMismatch]
               else [])) := by
  simp [check, h1, h2]

/-! ### The claims -/

/-- C1: the spec scenario expects check(ProducesNumber, BrokenModel_instance)
to return false with the behavioral-mismatch warning. Evaluating the code at
that input shows the divergence: check returns true and warns nothing,
because the stub body self.unimplemented() is never classified as a stub by
the scan, while invoking produce_number (whose body calls the unimplemented
helper) does raise CapabilityNotImplementedError carrying the model and
ProducesNumber, as the claim says. -/
theorem check_true_on_broken_model :
    check producesNumberC brokenModel false = .ok (true, []) ∧
    unimplemented brokenModel "" =
      .capabilityNotImplemented (some brokenModel) (some producesNumberC) "" :=
  ⟨by decide, by decide⟩

/-- C2: check never raises: for every capability, model and require_extra
flag, under the Model interface guarantee that registered extra-check names
resolve on the instance, the call returns a boolean verdict plus advisory
warnings, including when the model is not an instance of the capability. -/
theorem check_never_raises (cls : PyClass) (model : PyObj)
    (require_extra : Bool) (hv : validExtras model = true) :
    isOkResult (check cls model require_extra) = true := by
  obtain ⟨ic, hic⟩ := instanceStep_ok cls require_extra hv
  cases hci : isinstance model cls with
  | false =>
    rw [check_eq cls model require_extra none [] ic
      (sourceStep_not_instance hci) hic]
    rfl
  | true =>
    obtain ⟨b, w, hsc⟩ := source_check_ok_of_isinstance hci
    rw [check_eq cls model require_extra (some b) w ic
      (sourceStep_instance hci hsc) hic]
    rfl

theorem check_never_raises_witness :
    isOkResult (check producesNumberC extraModel true) = true :=
  check_never_raises producesNumberC extraModel true (by decide)

/-- C3 as stated is false: BadCap declares helper_method, whose source
cannot be retrieved, before get_key; BadModel is an instance of BadCap, the
required method get_key is classified as a stub, and its resolved body on
the model is identical to the capability stub body, yet source_check
returns true (with the caveat warning): the retrieval failure on
helper_method breaks the loop before get_key is examined. -/
theorem source_check_identical_stub_cex :
    isinstance badModel badCapC = true ∧
    ("get_key", some getKeySrc) ∈ requiredPairs badCapC ∧
    stubPair ("get_key", some getKeySrc) = true ∧
    resolveSrc badModel "get_key" = some (some getKeySrc) ∧
    source_check badCapC badModel = .ok (true, [Warning.sourceCaveat]) :=
  ⟨by decide, by decide, by decide, by decide, by decide⟩

/-- C3 (amended): when additionally every required method of the capability
has retrievable source and every stub-classified required method resolves on
the model with retrievable source (so no retrieval-failure break fires
first), and under the Model interface guarantee on registered extra-check
names: if some stub-classified required method resolves on the model to
exactly the capability stub text, then source_check returns false and check
returns false emitting the behavioral-mismatch warning. -/
theorem source_check_detects_identical_stub (cls : PyClass) (model : PyObj)
    (hinst : isinstance model cls = true)
    (hv : validExtras model = true)
    (hall : ∀ p ∈ requiredPairs cls, p.2.isSome = true)
    (hres : ∀ p ∈ requiredPairs cls, stubPair p = true →
      (resolveSrc model p.1).join.isSome = true)
    (hwit : ∃ p ∈ requiredPairs cls, stubPair p = true ∧
      resolveSrc model p.1 = some p.2) :
    source_check cls model = .ok (false, []) ∧
    ∀ require_extra, check cls model require_extra =
      .ok (false, [Warning.behavioralMismatch]) := by
  have hsc : source_check cls model = .ok (false, []) :=
    sourceCheckLoop_false model (requiredPairs cls) hall hres hwit
  refine ⟨hsc, fun re => ?_⟩
  obtain ⟨ic, hic⟩ := instanceStep_ok cls re hv
  rw [check_eq cls model re (some false) [] ic (sourceStep_instance hinst hsc) hic]
  simp [hinst]

theorem source_check_detects_identical_stub_witness :
    source_check hasKeyC lazyModel = .ok (false, []) ∧
    check hasKeyC lazyModel false = .ok (false, [Warning.behavioralMismatch]) :=
  ⟨(source_check_detects_identical_stub hasKeyC lazyModel (by decide) (by decide)
      (by decide) (by decide) (by decide)).1,
   (source_check_detects_identical_stub hasKeyC lazyModel (by decide) (by decide)
      (by decide) (by decide) (by decide)).2 false⟩

/-- C4: when the model is not an instance of the capability, check returns
false and emits exactly the structural-mismatch warning, for either value of
require_extra, under the Model interface guarantee on registered extra-check
names; the result carries no trace of source_check (no verdict, no caveat
warning), which the skipped branch never invokes. -/
theorem check_false_without_structural_conformance (cls : PyClass)
    (model : PyObj) (require_extra : Bool)
    (hni : isinstance model cls = false) (hv : validExtras model = true) :
    check cls model require_extra = .ok (false, [Warning.structuralMismatch]) := by
  obtain ⟨ic, hic⟩ := instanceStep_ok cls require_extra hv
  rw [check_eq cls model require_extra none [] ic
    (sourceStep_not_instance hni) hic]
  simp [hni]

theorem check_false_without_structural_conformance_witness :
    check runnableC lazyModel false = .ok (false, [Warning.structuralMismatch]) :=
  check_false_without_structural_conformance runnableC lazyModel false
    (by decide) (by decide)

/-- C5: with require_extra, check returns false whenever the model's
extra-checks mapping has no entry for the capability or the mapping is
absent, whatever class- and source-conformance say. -/
theorem check_require_extra_false_without_entry (cls : PyClass)
    (model : PyObj) (h : extraEntry model cls = none) :
    checkVerdict cls model true = .ok false := by
  have hic : instanceStep cls model true = .ok false := by
    simpa using @instanceStep_none cls model true h
  cases hci : isinstance model cls with
  | false =>
    rw [checkVerdict, check_eq cls model true none [] false
      (sourceStep_not_instance hci) hic]
    simp [Except.map]
  | true =>
    obtain ⟨b, w, hsc⟩ := source_check_ok_of_isinstance hci
    rw [checkVerdict, check_eq cls model true (some b) w false
      (sourceStep_instance hci hsc) hic]
    simp [Except.map]

theorem check_require_extra_false_without_entry_witness :
    checkVerdict producesNumberC brokenModel true = .ok false :=
  check_require_extra_false_without_entry producesNumberC brokenModel (by decide)

/-- C6: with require_extra, when the extra-checks mapping registers a
(non-empty) method name for the capability and that zero-argument method is
present on the model returning b, check returns b combined by logical AND
with the class-conformance and source-conformance verdicts. -/
theorem check_require_extra_uses_registered_method (cls : PyClass)
    (model : PyObj) (n : String) (b : Bool)
    (he : extraEntry model cls = some n) (hn : n ≠ "")
    (hb : model.extraMethods.lookup n = some b) :
    checkVerdict cls model true =
      .ok (isinstance model cls && b && sourceVerdict cls model) := by
  have hic : instanceStep cls model true = .ok b := instanceStep_some he hn hb
  cases hci : isinstance model cls with
  | false =>
    rw [checkVerdict, check_eq cls model true none [] b
      (sourceStep_not_instance hci) hic]
    simp [hci, Except.map]
  | true =>
    obtain ⟨sb, sw, hsc⟩ := source_check_ok_of_isinstance hci
    rw [checkVerdict, check_eq cls model true (some sb) sw b
      (sourceStep_instance hci hsc) hic]
    simp [hci, sourceVerdict, hsc, Except.map]

theorem check_require_extra_uses_registered_method_witness :
    checkVerdict producesNumberC extraModel true =
      .ok (isinstance extraModel producesNumberC && true &&
        sourceVerdict producesNumberC extraModel) :=
  check_require_extra_uses_registered_method producesNumberC extraModel
    "check_pn" true (by decide) (by decide) (by decide)

/-- C7: unimplemented raises CapabilityNotImplementedError carrying the
object itself when it is a Model instance and none otherwise, the first
class in the MRO that is a Capability subclass and not a Model subclass (or
none when no such class exists), and the given message; the returned raise
is its only effect. -/
theorem unimplemented_error_contents (self : PyObj) (message : String) :
    unimplemented self message =
      PyError.capabilityNotImplemented
        (if self.mro.any (fun c => c.name = "Model") then some self else none)
        (self.mro.find? (fun c =>
          c.ancestors.contains "Capability" && !(c.ancestors.contains "Model")))
        message := by
  simp only [unimplemented, List.filter_head?]

/-- C8: whenever source_check returns with the retrieval caveat among its
warnings, the verdict is the partial one computed before the failure, which
is necessarily true, and the caveat is the only warning: the failure path
neither raises nor returns false. -/
theorem source_check_caveat_returns_true (cls : PyClass) (model : PyObj)
    (b : Bool) (w : List Warning)
    (h : source_check cls model = .ok (b, w))
    (hc : Warning.sourceCaveat ∈ w) :
    b = true ∧ w = [Warning.sourceCaveat] :=
  sourceCheckLoop_caveat model (requiredPairs cls) b w h hc

theorem source_check_caveat_returns_true_witness :
    true = true ∧
    ([Warning.sourceCaveat] : List Warning) = [Warning.sourceCaveat] :=
  source_check_caveat_returns_true badCapC badModel true [Warning.sourceCaveat]
    (by decide) (by decide)

/-- C9: source_check and check are deterministic: two invocations on the
same capability, model and flag return equal results; in this embedding
both are pure functions whose only output channels are the returned verdict
and the warning list. -/
theorem check_source_check_deterministic (cls : PyClass) (model : PyObj)
    (require_extra : Bool) (r₁ r₂ s₁ s₂ : Except PyError (Bool × List Warning))
    (h₁ : check cls model require_extra = r₁)
    (h₂ : check cls model require_extra = r₂)
    (hs₁ : source_check cls model = s₁)
    (hs₂ : source_check cls model = s₂) :
    r₁ = r₂ ∧ s₁ = s₂ :=
  ⟨h₁.symm.trans h₂, hs₁.symm.trans hs₂⟩

theorem check_source_check_deterministic_witness :
    check producesNumberC extraModel true = check producesNumberC extraModel true ∧
    source_check producesNumberC extraModel = source_check producesNumberC extraModel :=
  check_source_check_deterministic producesNumberC extraModel true
    _ _ _ _ rfl rfl rfl rfl

/-- C10: the stub scan recognizes only stripped lines beginning with one of
the three literal prefixes; the line self.unimplemented(), the body form of
every declared method of ProducesNumber and Runnable, matches none of them,
so those methods are never classified as stubs and source_check on these
capabilities returns true with no warning for every model whatsoever. -/
theorem stub_scan_misses_self_unimplemented (model : PyObj) :
    isStubLine "        self.unimplemented()\n" = false ∧
    stubPair ("produce_number", some produceNumberSrc) = false ∧
    source_check producesNumberC model = .ok (true, []) ∧
    source_check runnableC model = .ok (true, []) :=
  ⟨by decide, by decide, rfl, rfl⟩

end Sciunit
